import Mathlib

/-!
Verification of the LoneVerse ML service core (loan risk assessment).

Shallow embedding of `ml_service/data_generator.py`, `ml_service/model_comparison.py`
and `ml_service/logistic_model.py`. Python floats are modelled as rationals (ℚ);
the arithmetic and comparison structure of each function is translated verbatim.
Random draws (numpy) become explicit function arguments, so theorems quantify over
every value a draw could produce.
-/

namespace LoneVerse

/-- `np.clip(x, lo, hi)`: equivalent to `min(hi, max(x, lo))`. -/
def clip (x lo hi : ℚ) : ℚ := min (max x lo) hi

/-- Python `int(q)` applied to a numeric value: truncation toward zero. -/
def pyInt (q : ℚ) : ℤ := if q < 0 then ⌈q⌉ else ⌊q⌋

/-! ## Synthetic data generator (`data_generator.py`) -/

/-- The accumulated `prob` of `LoanDataGenerator._calculate_default_probability`
just before the final `np.clip` (lines 131-152). -/
def default_probability_pre (base_risk repayment_rate loan_to_collateral
    stablecoin_ratio account_age : ℚ) : ℚ :=
  let prob := base_risk * (4/10)
  let prob := if repayment_rate > 0 then prob + (1 - repayment_rate) * (3/10) else prob
  let prob := if loan_to_collateral > 8/10 then prob + 2/10
              else if loan_to_collateral > 7/10 then prob + 1/10
              else prob
  let prob := prob - stablecoin_ratio * (15/100)
  let prob := if account_age < 30 then prob + 15/100
              else if account_age < 90 then prob + 8/100
              else if account_age > 365 then prob - 1/10
              else prob
  prob

/-- `LoanDataGenerator._calculate_default_probability` (lines 126-154):
the accumulated probability, clipped to `[0.01, 0.95]`. -/
def calculate_default_probability (base_risk repayment_rate loan_to_collateral
    stablecoin_ratio account_age : ℚ) : ℚ :=
  clip (default_probability_pre base_risk repayment_rate loan_to_collateral
    stablecoin_ratio account_age) (1/100) (95/100)

/-- The call site in `LoanDataGenerator.generate_training_data` (lines 75-78):
the generator passes `repayment_rate if total_loans > 0 else 0.5` as the
repayment-rate argument. -/
def sample_default_probability (total_loans : ℕ) (base_risk repayment_rate
    loan_to_collateral stablecoin_ratio account_age : ℚ) : ℚ :=
  calculate_default_probability base_risk
    (if total_loans > 0 then repayment_rate else 1/2)
    loan_to_collateral stablecoin_ratio account_age

/-- Pre-clip value of `sample_default_probability`, with the same call-site
substitution of the repayment-rate argument. -/
def sample_default_probability_pre (total_loans : ℕ) (base_risk repayment_rate
    loan_to_collateral stablecoin_ratio account_age : ℚ) : ℚ :=
  default_probability_pre base_risk
    (if total_loans > 0 then repayment_rate else 1/2)
    loan_to_collateral stablecoin_ratio account_age

/-- Follows the spec's wording of the default-probability formula (§4.1): the
repayment-history term `0.3×(1−repayment_rate)` is added exactly when the borrower
has prior loans (`total_loans > 0`); every other term as in the code. Defined only
to be compared with `sample_default_probability_pre`, which follows the code. -/
def spec_default_probability_pre (total_loans : ℕ) (base_risk repayment_rate
    loan_to_collateral stablecoin_ratio account_age : ℚ) : ℚ :=
  let prob := base_risk * (4/10)
  let prob := if total_loans > 0 then prob + (1 - repayment_rate) * (3/10) else prob
  let prob := if loan_to_collateral > 8/10 then prob + 2/10
              else if loan_to_collateral > 7/10 then prob + 1/10
              else prob
  let prob := prob - stablecoin_ratio * (15/100)
  let prob := if account_age < 30 then prob + 15/100
              else if account_age < 90 then prob + 8/100
              else if account_age > 365 then prob - 1/10
              else prob
  prob

/-- Follows the spec's wording (§4.1), clipped to `[0.01, 0.95]` as in the code. -/
def spec_default_probability (total_loans : ℕ) (base_risk repayment_rate
    loan_to_collateral stablecoin_ratio account_age : ℚ) : ℚ :=
  clip (spec_default_probability_pre total_loans base_risk repayment_rate
    loan_to_collateral stablecoin_ratio account_age) (1/100) (95/100)

/-- The generator's lending-history branch
(`LoanDataGenerator.generate_training_data`, lines 44-55): given the value of
`total_loans` and the raw random draws, compute `(repaid_loans, defaulted_loans)`.
The repayment rate draw is `np.random.beta(8, 2)` (`beta82`), the extra
default-rate draw is `np.random.beta(1, 9)` (`beta19`). -/
def gen_repayment_rate (base_risk beta82 : ℚ) : ℚ :=
  clip (beta82 * (1 - base_risk * (6/10))) 0 1

/-- The generator's default-rate computation (line 49):
clipped to at most `1 - repayment_rate`. -/
def gen_default_rate (base_risk beta19 repayment_rate : ℚ) : ℚ :=
  clip (base_risk * (5/10) + beta19) 0 (1 - repayment_rate)

/-- Lines 46-55 of `generate_training_data`: the pair
`(repaid_loans, defaulted_loans)`, both obtained with Python `int()`. -/
def lending_history_counts (total_loans : ℕ) (base_risk beta82 beta19 : ℚ) :
    ℤ × ℤ :=
  if total_loans > 0 then
    let repayment_rate := gen_repayment_rate base_risk beta82
    let repaid_loans := pyInt ((total_loans : ℚ) * repayment_rate)
    let default_rate := gen_default_rate base_risk beta19 repayment_rate
    let defaulted_loans := pyInt ((total_loans : ℚ) * default_rate)
    (repaid_loans, defaulted_loans)
  else (0, 0)

/-! ## Heuristic scorer (`model_comparison.py`, `heuristic_risk_assessment`) -/

/-- A feature vector as seen by `ModelComparison.heuristic_risk_assessment`:
the features dict is built from the column names actually present, and every
lookup goes through `features.get(name, default)`, so each feature the scorer
reads is either present (`some v`) or absent (`none`). Only the six features
the scorer reads are modelled. -/
structure FeatureVector where
  repaid_loans : Option ℚ := none
  total_loans : Option ℚ := none
  defaulted_loans : Option ℚ := none
  account_age_days : Option ℚ := none
  loan_to_collateral_ratio : Option ℚ := none
  duration_days : Option ℚ := none

/-- Line 36: `repaid_loans / total_loans if total_loans > 0 else 0`,
with the `features.get(..., 0)` defaults of lines 32-34. -/
def heuristic_repayment_rate (fv : FeatureVector) : ℚ :=
  if fv.total_loans.getD 0 > 0
  then fv.repaid_loans.getD 0 / fv.total_loans.getD 0 else 0

/-- Line 37: `defaulted_loans / total_loans if total_loans > 0 else 0`. -/
def heuristic_default_rate (fv : FeatureVector) : ℚ :=
  if fv.total_loans.getD 0 > 0
  then fv.defaulted_loans.getD 0 / fv.total_loans.getD 0 else 0

/-- Lines 50-55: the repayment-history adjustment added to `risk_score`. -/
def repayment_adjustment (repayment_rate total_loans : ℚ) : ℚ :=
  if repayment_rate > 95/100 then -(2/10)
  else if repayment_rate > 85/100 then -(1/10)
  else if repayment_rate < 7/10 ∧ total_loans > 0 then 15/100
  else 0

/-- Lines 58-63: the default-rate adjustment. -/
def default_rate_adjustment (default_rate : ℚ) : ℚ :=
  if default_rate > 2/10 then 25/100
  else if default_rate > 1/10 then 15/100
  else if default_rate > 5/100 then 8/100
  else 0

/-- Lines 70-77: the account-age adjustment. -/
def account_age_adjustment (account_age : ℚ) : ℚ :=
  if account_age < 30 then 15/100
  else if account_age < 90 then 1/10
  else if account_age > 730 then -(1/10)
  else if account_age > 365 then -(5/100)
  else 0

/-- Lines 80-89: the loan-to-collateral adjustment. -/
def collateral_adjustment (loan_to_collateral : ℚ) : ℚ :=
  if loan_to_collateral > 9/10 then 2/10
  else if loan_to_collateral > 8/10 then 15/100
  else if loan_to_collateral > 7/10 then 8/100
  else if loan_to_collateral < 4/10 then -(1/10)
  else if loan_to_collateral < 5/10 then -(5/100)
  else 0

/-- Lines 92-96: the duration adjustment, on `duration_days / 365`. -/
def duration_adjustment (duration : ℚ) : ℚ :=
  if duration > 1 then 12/100
  else if duration > 1/2 then 6/100
  else 0

/-- `ModelComparison.heuristic_risk_assessment` for one row (lines 28-100):
`risk_score` starts at `0.5`, each band chain adds its adjustment in order, the
convex credit-score penalty `(0.5 - credit_score)² × 0.8` uses
`credit_score = max(0, min(1, 0.5 + 0.3·repayment_rate − 0.3·default_rate))`,
and the final score is clamped by `max(0, min(1, risk_score))`. -/
def heuristic_risk_assessment (fv : FeatureVector) : ℚ :=
  let repayment_rate := heuristic_repayment_rate fv
  let default_rate := heuristic_default_rate fv
  let credit_score :=
    max 0 (min 1 (1/2 + repayment_rate * (3/10) - default_rate * (3/10)))
  let account_age := fv.account_age_days.getD 0
  let loan_to_collateral := fv.loan_to_collateral_ratio.getD (1/2)
  let risk_score := 1/2
    + repayment_adjustment repayment_rate (fv.total_loans.getD 0)
    + default_rate_adjustment default_rate
    + (1/2 - credit_score)^2 * (8/10)
    + account_age_adjustment account_age
    + collateral_adjustment loan_to_collateral
    + duration_adjustment (fv.duration_days.getD 0 / 365)
  max 0 (min 1 risk_score)

/-! ## Logistic model post-processing (`logistic_model.py`) -/

/-- `LoanRiskLogisticModel._get_risk_category` (lines 174-183). -/
def get_risk_category (probability : ℚ) : String :=
  if probability ≤ 2/10 then "Low"
  else if probability ≤ 5/10 then "Medium"
  else if probability ≤ 7/10 then "High"
  else "Very High"

/-- The result dict of `LoanRiskLogisticModel.predict_single` (lines 167-172). -/
structure SinglePrediction where
  default_prediction : ℤ
  default_probability : ℚ
  risk_score : ℤ
  risk_category : String

/-- `LoanRiskLogisticModel.predict_single`'s result assembly (lines 167-172),
given the prediction and probability returned by `self.predict`:
`risk_score = int(probability * 1000)` and
`risk_category = self._get_risk_category(probability)`. -/
def predict_single_result (prediction : ℤ) (probability : ℚ) : SinglePrediction :=
  { default_prediction := prediction
    default_probability := probability
    risk_score := pyInt (probability * 1000)
    risk_category := get_risk_category probability }

/-- The sklearn pipeline held by a trained `LoanRiskLogisticModel`
(`self.scaler.transform` followed by `self.model.predict` /
`self.model.predict_proba[:, 1]`); the fitted estimator itself is external to
this repository, so it is abstracted as the function it computes on a batch of
rows. -/
structure FittedPipeline where
  run : List (List ℚ) → List ℤ × List ℚ

/-- The only state of `LoanRiskLogisticModel` that `predict` consults:
`self.model`, which is `None` until a successful `train()` or `load_model()`. -/
structure LoanRiskLogisticModel where
  model : Option FittedPipeline

/-- The error raised by `LoanRiskLogisticModel.predict` (line 144):
`ValueError("Model not trained. Call train() first.")` — the spec's
`ModelNotTrainedError` kind. -/
inductive PredictError where
  | modelNotTrained : PredictError
deriving DecidableEq

/-- `LoanRiskLogisticModel.predict` (lines 141-150): raise if `self.model is
None`, otherwise run the fitted pipeline on the input batch. -/
def LoanRiskLogisticModel.predict (m : LoanRiskLogisticModel)
    (X : List (List ℚ)) : Except PredictError (List ℤ × List ℚ) :=
  match m.model with
  | none => .error .modelNotTrained
  | some f => .ok (f.run X)

/-! ## Comparison protocol (`model_comparison.py`, `compare_models`) -/

/-- The metric values of one model that `compare_models` reads from a metrics
dict (produced by `_calculate_metrics`); sklearn's metric computations are
external, so the values are carried as data. -/
structure Metrics where
  accuracy : ℚ
  precision_score : ℚ
  recall_score : ℚ
  f1_score : ℚ
  roc_auc : ℚ
  log_loss : ℚ

/-- Lines 117-125 of `compare_models`, for one of the five higher-is-better
metrics: `((logistic_val - heuristic_val) / heuristic_val) * 100` when
`heuristic_val > 0`, else `0`. -/
def metric_improvement (logistic_val heuristic_val : ℚ) : ℚ :=
  if heuristic_val > 0 then ((logistic_val - heuristic_val) / heuristic_val) * 100
  else 0

/-- Lines 127-133 of `compare_models`: for log-loss, lower is better, so the
improvement is `((heuristic_loss - logistic_loss) / heuristic_loss) * 100` when
`heuristic_loss > 0`, else `0`. -/
def log_loss_improvement (logistic_loss heuristic_loss : ℚ) : ℚ :=
  if heuristic_loss > 0 then
    ((heuristic_loss - logistic_loss) / heuristic_loss) * 100
  else 0

/-- The `improvements` dict that `ModelComparison.compare_models` builds
(lines 116-133) from the two metric records. -/
structure Improvements where
  accuracy : ℚ
  precision_score : ℚ
  recall_score : ℚ
  f1_score : ℚ
  roc_auc : ℚ
  log_loss : ℚ

/-- The improvements portion of `ModelComparison.compare_models`
(lines 104-142): scorer A is the logistic model, scorer B the heuristic. -/
def compare_models_improvements (logistic heuristic : Metrics) : Improvements :=
  { accuracy := metric_improvement logistic.accuracy heuristic.accuracy
    precision_score := metric_improvement logistic.precision_score heuristic.precision_score
    recall_score := metric_improvement logistic.recall_score heuristic.recall_score
    f1_score := metric_improvement logistic.f1_score heuristic.f1_score
    roc_auc := metric_improvement logistic.roc_auc heuristic.roc_auc
    log_loss := log_loss_improvement logistic.log_loss heuristic.log_loss }

/-! ## Theorems -/

theorem calculate_default_probability_eq_clip (b r ltc s a : ℚ) :
    calculate_default_probability b r ltc s a =
      clip (default_probability_pre b r ltc s a) (1/100) (95/100) := rfl

theorem clip_le (x lo hi : ℚ) : clip x lo hi ≤ hi := min_le_right _ _

theorem le_clip (x lo hi : ℚ) (h : lo ≤ hi) : lo ≤ clip x lo hi :=
  le_min (le_max_right _ _) h

/-- C1: For every sample produced by the synthetic data generator, the default
probability computed by `_calculate_default_probability` (and used to draw the
binary label) lies in the closed interval `[0.01, 0.95]`, for all values of the
latent risk scalar and of every other argument of the formula. -/
theorem default_probability_in_clip_interval (total_loans : ℕ)
    (base_risk repayment_rate loan_to_collateral stablecoin_ratio account_age : ℚ) :
    1/100 ≤ sample_default_probability total_loans base_risk repayment_rate
        loan_to_collateral stablecoin_ratio account_age ∧
      sample_default_probability total_loans base_risk repayment_rate
        loan_to_collateral stablecoin_ratio account_age ≤ 95/100 := by
  constructor
  · exact le_clip _ _ _ (by norm_num)
  · exact clip_le _ _ _

/-- C2 counterexample: for a borrower with `total_loans = 0` the generator passes
`0.5` as the repayment-rate argument, and `_calculate_default_probability` adds the
repayment-history term whenever that argument is positive, so the term does
contribute: with `base_risk = 0`, `loan_to_collateral = 1/2`,
`stablecoin_ratio = 0`, `account_age = 365` the code yields `0.15` while the
spec-worded formula (no history term when `total_loans = 0`) yields `0.01`. -/
theorem repayment_term_zero_loans_counterexample :
    sample_default_probability 0 0 0 (1/2) 0 365 = 3/20 ∧
      spec_default_probability 0 0 0 (1/2) 0 365 = 1/100 ∧
      sample_default_probability 0 0 0 (1/2) 0 365 ≠
        spec_default_probability 0 0 0 (1/2) 0 365 := by
  refine ⟨?_, ?_, ?_⟩ <;>
    · simp only [sample_default_probability, spec_default_probability,
        calculate_default_probability, sample_default_probability_pre,
        spec_default_probability_pre, default_probability_pre, clip,
        min_def, max_def]
      norm_num

/-- C2 amended: the repayment-history term `0.3×(1−repayment_rate)` is added
whenever the repayment-rate argument is positive; since the generator substitutes
`repayment_rate = 0.5` when `total_loans = 0`, a borrower with no prior loans
receives a repayment-history contribution of exactly `0.15` on top of the
spec-worded formula, while for a borrower with prior loans and a positive
repayment rate the code and the spec wording agree. -/
theorem repayment_term_added_when_rate_positive (total_loans : ℕ)
    (base_risk repayment_rate loan_to_collateral stablecoin_ratio account_age : ℚ) :
    (total_loans = 0 →
      sample_default_probability_pre total_loans base_risk repayment_rate
          loan_to_collateral stablecoin_ratio account_age =
        spec_default_probability_pre total_loans base_risk repayment_rate
          loan_to_collateral stablecoin_ratio account_age + 3/20) ∧
    (0 < total_loans → 0 < repayment_rate →
      sample_default_probability_pre total_loans base_risk repayment_rate
          loan_to_collateral stablecoin_ratio account_age =
        spec_default_probability_pre total_loans base_risk repayment_rate
          loan_to_collateral stablecoin_ratio account_age) := by
  constructor
  · intro h
    subst h
    simp only [sample_default_probability_pre, spec_default_probability_pre,
      default_probability_pre]
    norm_num
    split_ifs <;> ring
  · intro h hr
    simp only [sample_default_probability_pre, spec_default_probability_pre,
      default_probability_pre, if_pos h, if_pos hr]

theorem repayment_term_added_when_rate_positive_witness :
    (sample_default_probability_pre 0 1 0 (1/2) 0 365 =
      spec_default_probability_pre 0 1 0 (1/2) 0 365 + 3/20) ∧
    (sample_default_probability_pre 3 1 (1/2) (1/2) 0 365 =
      spec_default_probability_pre 3 1 (1/2) (1/2) 0 365) :=
  ⟨(repayment_term_added_when_rate_positive 0 1 0 (1/2) 0 365).1 rfl,
   (repayment_term_added_when_rate_positive 3 1 (1/2) (1/2) 0 365).2
     (by norm_num) (by norm_num)⟩

/-- C9: for every sample produced by the generator,
`repaid_loans + defaulted_loans ≤ total_loans`: the repayment rate is clipped to
`[0,1]`, the default rate is clipped to at most `1 − repayment_rate`, both counts
are truncations of `rate × total_loans`, hence their sum never exceeds the total. -/
theorem lending_history_counts_le_total (total_loans : ℕ)
    (base_risk beta82 beta19 : ℚ) :
    0 ≤ gen_repayment_rate base_risk beta82 ∧
    gen_repayment_rate base_risk beta82 ≤ 1 ∧
    gen_default_rate base_risk beta19 (gen_repayment_rate base_risk beta82) ≤
      1 - gen_repayment_rate base_risk beta82 ∧
    (lending_history_counts total_loans base_risk beta82 beta19).1 +
      (lending_history_counts total_loans base_risk beta82 beta19).2 ≤
        (total_loans : ℤ) := by
  set r := gen_repayment_rate base_risk beta82 with hr
  have hr0 : 0 ≤ r := le_clip _ _ _ (by norm_num)
  have hr1 : r ≤ 1 := clip_le _ _ _
  have hd1 : gen_default_rate base_risk beta19 r ≤ 1 - r := clip_le _ _ _
  have hd0 : 0 ≤ gen_default_rate base_risk beta19 r :=
    le_clip _ _ _ (by linarith)
  refine ⟨hr0, hr1, hd1, ?_⟩
  unfold lending_history_counts
  split_ifs with h
  · set d := gen_default_rate base_risk beta19 r with hd
    have ht0 : (0:ℚ) ≤ (total_loans : ℚ) := by positivity
    have htr : (0:ℚ) ≤ (total_loans : ℚ) * r := mul_nonneg ht0 hr0
    have htd : (0:ℚ) ≤ (total_loans : ℚ) * d := mul_nonneg ht0 hd0
    simp only [pyInt, if_neg (not_lt.mpr htr), if_neg (not_lt.mpr htd)]
    have hsum : (total_loans : ℚ) * r + (total_loans : ℚ) * d ≤ (total_loans : ℚ) := by
      have : r + d ≤ 1 := by linarith
      nlinarith
    calc ⌊(total_loans : ℚ) * r⌋ + ⌊(total_loans : ℚ) * d⌋
        ≤ ⌊(total_loans : ℚ) * r + (total_loans : ℚ) * d⌋ := by
          apply Int.le_floor.mpr
          push_cast
          have h1 := Int.floor_le ((total_loans : ℚ) * r)
          have h2 := Int.floor_le ((total_loans : ℚ) * d)
          linarith
      _ ≤ ⌊(total_loans : ℚ)⌋ := Int.floor_le_floor hsum
      _ = (total_loans : ℤ) := Int.floor_natCast _
  · simp

/-- C4: for every input `FeatureVector` — including one whose features are all
zero or absent — the heuristic scorer returns a probability in `[0, 1]`. -/
theorem heuristic_risk_assessment_in_unit_interval (fv : FeatureVector) :
    0 ≤ heuristic_risk_assessment fv ∧ heuristic_risk_assessment fv ≤ 1 := by
  unfold heuristic_risk_assessment
  exact ⟨le_max_left _ _, max_le (by norm_num) (min_le_left _ _)⟩

/-- C7: for every `FeatureVector` with `total_loans = 0`, the scorer's guard
`total_loans > 0` is false, so `repayment_rate` and `default_rate` are both set
to `0` without taking the division branch, and scoring cannot fail. -/
theorem heuristic_rates_zero_of_no_loans (fv : FeatureVector)
    (h : fv.total_loans = some 0) :
    heuristic_repayment_rate fv = 0 ∧ heuristic_default_rate fv = 0 := by
  constructor <;> simp [heuristic_repayment_rate, heuristic_default_rate, h]

theorem heuristic_rates_zero_of_no_loans_witness :
    heuristic_repayment_rate { total_loans := some 0 } = 0 ∧
      heuristic_default_rate { total_loans := some 0 } = 0 :=
  heuristic_rates_zero_of_no_loans { total_loans := some 0 } rfl

/-- C6 counterexample: at `loan_to_collateral_ratio = 0.95`,
`account_age_days = 10`, `total_loans = 0`, the scorer returns
`0.5 + 0.20 + 0.15 = 0.85` — the deterministic value the claim's formula gives
(the credit-score term is `0`), but that value is *above* the neutral `0.5`
baseline, not below it. -/
theorem heuristic_concrete_scenario_counterexample :
    heuristic_risk_assessment
        { total_loans := some 0, account_age_days := some 10,
          loan_to_collateral_ratio := some (95/100) } = 17/20 ∧
      ¬ heuristic_risk_assessment
        { total_loans := some 0, account_age_days := some 10,
          loan_to_collateral_ratio := some (95/100) } < 1/2 := by
  have h : heuristic_risk_assessment
      { total_loans := some 0, account_age_days := some 10,
        loan_to_collateral_ratio := some (95/100) } = 17/20 := by
    simp only [heuristic_risk_assessment, heuristic_repayment_rate,
      heuristic_default_rate, repayment_adjustment, default_rate_adjustment,
      account_age_adjustment, collateral_adjustment, duration_adjustment,
      Option.getD, min_def, max_def]
    norm_num
  exact ⟨h, by rw [h]; norm_num⟩

/-- C6 amended: for the concrete input `loan_to_collateral_ratio = 0.95`,
`account_age_days = 10`, `total_loans = 0`, the heuristic scorer's output equals
the deterministic value `0.5 + 0.20 (collateral) + 0.15 (age)` with a zero
credit-score term, i.e. `0.85`, and this value is above the neutral `0.5`
baseline. -/
theorem heuristic_concrete_scenario_value :
    heuristic_risk_assessment
        { total_loans := some 0, account_age_days := some 10,
          loan_to_collateral_ratio := some (95/100) } = 1/2 + 2/10 + 15/100 ∧
      1/2 < heuristic_risk_assessment
        { total_loans := some 0, account_age_days := some 10,
          loan_to_collateral_ratio := some (95/100) } := by
  have h : heuristic_risk_assessment
      { total_loans := some 0, account_age_days := some 10,
        loan_to_collateral_ratio := some (95/100) } = 1/2 + 2/10 + 15/100 := by
    simp only [heuristic_risk_assessment, heuristic_repayment_rate,
      heuristic_default_rate, repayment_adjustment, default_rate_adjustment,
      account_age_adjustment, collateral_adjustment, duration_adjustment,
      Option.getD, min_def, max_def]
    norm_num
  exact ⟨h, by rw [h]; norm_num⟩

/-- C10: a missing feature is substituted by `features.get`'s default — `0` for
`repaid_loans`, `total_loans`, `defaulted_loans`, `account_age_days` and
`duration_days`, but `0.5` for `loan_to_collateral_ratio` — so a missing
collateral ratio lands in no collateral band (`collateral_adjustment (1/2) = 0`),
whereas treating it as `0` would trigger the `< 0.4` bonus band. -/
theorem heuristic_missing_feature_defaults (fv : FeatureVector) :
    (fv.repaid_loans = none →
      heuristic_risk_assessment fv =
        heuristic_risk_assessment { fv with repaid_loans := some 0 }) ∧
    (fv.total_loans = none →
      heuristic_risk_assessment fv =
        heuristic_risk_assessment { fv with total_loans := some 0 }) ∧
    (fv.defaulted_loans = none →
      heuristic_risk_assessment fv =
        heuristic_risk_assessment { fv with defaulted_loans := some 0 }) ∧
    (fv.account_age_days = none →
      heuristic_risk_assessment fv =
        heuristic_risk_assessment { fv with account_age_days := some 0 }) ∧
    (fv.duration_days = none →
      heuristic_risk_assessment fv =
        heuristic_risk_assessment { fv with duration_days := some 0 }) ∧
    (fv.loan_to_collateral_ratio = none →
      heuristic_risk_assessment fv =
        heuristic_risk_assessment { fv with loan_to_collateral_ratio := some (1/2) }) ∧
    collateral_adjustment (1/2) = 0 ∧
    collateral_adjustment 0 = -(1/10) := by
  obtain ⟨f1, f2, f3, f4, f5, f6⟩ := fv
  refine ⟨?_, ?_, ?_, ?_, ?_, ?_, ?_, ?_⟩
  · rintro rfl; rfl
  · rintro rfl; rfl
  · rintro rfl; rfl
  · rintro rfl; rfl
  · rintro rfl; rfl
  · rintro rfl; rfl
  · norm_num [collateral_adjustment]
  · norm_num [collateral_adjustment]

theorem heuristic_missing_feature_defaults_witness :
    (heuristic_risk_assessment {} =
      heuristic_risk_assessment { repaid_loans := some 0 }) ∧
    (heuristic_risk_assessment {} =
      heuristic_risk_assessment { total_loans := some 0 }) ∧
    (heuristic_risk_assessment {} =
      heuristic_risk_assessment { defaulted_loans := some 0 }) ∧
    (heuristic_risk_assessment {} =
      heuristic_risk_assessment { account_age_days := some 0 }) ∧
    (heuristic_risk_assessment {} =
      heuristic_risk_assessment { duration_days := some 0 }) ∧
    (heuristic_risk_assessment {} =
      heuristic_risk_assessment { loan_to_collateral_ratio := some (1/2) }) :=
  ⟨(heuristic_missing_feature_defaults {}).1 rfl,
   (heuristic_missing_feature_defaults {}).2.1 rfl,
   (heuristic_missing_feature_defaults {}).2.2.1 rfl,
   (heuristic_missing_feature_defaults {}).2.2.2.1 rfl,
   (heuristic_missing_feature_defaults {}).2.2.2.2.1 rfl,
   (heuristic_missing_feature_defaults {}).2.2.2.2.2.1 rfl⟩

/-- C3 counterexample: at probability `1/625 = 0.0016`, the code's risk score is
`int(1.6) = 1`, while `round(0.0016 × 1000) = 2`, so the risk score is not
`round(probability × 1000)`. -/
theorem risk_score_not_round_counterexample :
    (predict_single_result 0 (1/625)).risk_score = 1 ∧
      round ((1/625 : ℚ) * 1000) = 2 ∧
      (predict_single_result 0 (1/625)).risk_score ≠ round ((1/625 : ℚ) * 1000) := by
  have h1 : (predict_single_result 0 (1/625)).risk_score = 1 := by
    simp only [predict_single_result, pyInt]
    norm_num [Int.floor_eq_iff]
  have h2 : round ((1/625 : ℚ) * 1000) = 2 := by
    rw [round_eq]
    norm_num [Int.floor_eq_iff]
  exact ⟨h1, h2, by rw [h1, h2]; norm_num⟩

/-- C3 amended: the risk score attached to a single prediction is the integer
*truncation* `int(probability × 1000)` — equal to `⌊probability × 1000⌋` for every
probability in `[0,1]` — on the 0–1000 scale, and the risk category is `"Low"`
when the probability is ≤ 0.2, `"Medium"` when ≤ 0.5, `"High"` when ≤ 0.7 and
`"Very High"` otherwise. -/
theorem predict_single_score_and_category (prediction : ℤ) (p : ℚ)
    (h0 : 0 ≤ p) (h1 : p ≤ 1) :
    (predict_single_result prediction p).risk_score = ⌊p * 1000⌋ ∧
    0 ≤ (predict_single_result prediction p).risk_score ∧
    (predict_single_result prediction p).risk_score ≤ 1000 ∧
    (p ≤ 2/10 → (predict_single_result prediction p).risk_category = "Low") ∧
    (2/10 < p → p ≤ 5/10 →
      (predict_single_result prediction p).risk_category = "Medium") ∧
    (5/10 < p → p ≤ 7/10 →
      (predict_single_result prediction p).risk_category = "High") ∧
    (7/10 < p → (predict_single_result prediction p).risk_category = "Very High") := by
  have hp : ¬ p * 1000 < 0 := not_lt.mpr (by positivity)
  have hfloor : (predict_single_result prediction p).risk_score = ⌊p * 1000⌋ := by
    simp [predict_single_result, pyInt, hp]
  refine ⟨hfloor, ?_, ?_, ?_, ?_, ?_, ?_⟩
  · rw [hfloor]
    exact Int.floor_nonneg.mpr (by positivity)
  · rw [hfloor]
    have : p * 1000 ≤ 1000 := by nlinarith
    calc ⌊p * 1000⌋ ≤ ⌊(1000 : ℚ)⌋ := Int.floor_le_floor this
      _ = 1000 := by norm_num
  · intro h
    simp [predict_single_result, get_risk_category, h]
  · intro ha hb
    simp [predict_single_result, get_risk_category, not_le.mpr ha, hb]
  · intro ha hb
    have : ¬ p ≤ 2/10 := by linarith
    simp [predict_single_result, get_risk_category, this, not_le.mpr ha, hb]
  · intro ha
    have h2 : ¬ p ≤ 2/10 := by linarith
    have h5 : ¬ p ≤ 5/10 := by linarith
    simp [predict_single_result, get_risk_category, h2, h5, not_le.mpr ha]

theorem predict_single_score_and_category_witness :
    (predict_single_result 0 (3/10)).risk_score = ⌊(3/10 : ℚ) * 1000⌋ ∧
    0 ≤ (predict_single_result 0 (3/10)).risk_score ∧
    (predict_single_result 0 (3/10)).risk_score ≤ 1000 ∧
    ((3/10 : ℚ) ≤ 2/10 → (predict_single_result 0 (3/10)).risk_category = "Low") ∧
    ((2/10 : ℚ) < 3/10 → (3/10 : ℚ) ≤ 5/10 →
      (predict_single_result 0 (3/10)).risk_category = "Medium") ∧
    ((5/10 : ℚ) < 3/10 → (3/10 : ℚ) ≤ 7/10 →
      (predict_single_result 0 (3/10)).risk_category = "High") ∧
    ((7/10 : ℚ) < 3/10 →
      (predict_single_result 0 (3/10)).risk_category = "Very High") :=
  predict_single_score_and_category 0 (3/10) (by norm_num) (by norm_num)

/-- C8: calling `predict` on a classifier before any fit (no trained model
present) fails with the model-not-trained error, and never returns a result in
that state. -/
theorem predict_untrained_fails (m : LoanRiskLogisticModel)
    (X : List (List ℚ)) (h : m.model = none) :
    m.predict X = .error .modelNotTrained ∧
      ∀ out : List ℤ × List ℚ, m.predict X ≠ .ok out := by
  constructor
  · simp [LoanRiskLogisticModel.predict, h]
  · intro out
    simp [LoanRiskLogisticModel.predict, h]

theorem predict_untrained_fails_witness :
    (LoanRiskLogisticModel.mk none).predict [[1]] = .error .modelNotTrained :=
  (predict_untrained_fails (LoanRiskLogisticModel.mk none) [[1]] rfl).1

/-- C5: the signed percentage improvement of scorer A over scorer B is
`(A−B)/B × 100` for accuracy, precision, recall, F1 and ROC-AUC, is
sign-inverted to `(B−A)/B × 100` for log-loss (so a lower log-loss for A yields
a positive improvement), and is `0` — not a division error — whenever B's value
for the metric is `0`. -/
theorem compare_models_improvement_formulae (A B : Metrics) :
    (0 < B.accuracy → (compare_models_improvements A B).accuracy =
      (A.accuracy - B.accuracy) / B.accuracy * 100) ∧
    (B.accuracy = 0 → (compare_models_improvements A B).accuracy = 0) ∧
    (0 < B.precision_score → (compare_models_improvements A B).precision_score =
      (A.precision_score - B.precision_score) / B.precision_score * 100) ∧
    (B.precision_score = 0 → (compare_models_improvements A B).precision_score = 0) ∧
    (0 < B.recall_score → (compare_models_improvements A B).recall_score =
      (A.recall_score - B.recall_score) / B.recall_score * 100) ∧
    (B.recall_score = 0 → (compare_models_improvements A B).recall_score = 0) ∧
    (0 < B.f1_score → (compare_models_improvements A B).f1_score =
      (A.f1_score - B.f1_score) / B.f1_score * 100) ∧
    (B.f1_score = 0 → (compare_models_improvements A B).f1_score = 0) ∧
    (0 < B.roc_auc → (compare_models_improvements A B).roc_auc =
      (A.roc_auc - B.roc_auc) / B.roc_auc * 100) ∧
    (B.roc_auc = 0 → (compare_models_improvements A B).roc_auc = 0) ∧
    (0 < B.log_loss → (compare_models_improvements A B).log_loss =
      (B.log_loss - A.log_loss) / B.log_loss * 100) ∧
    (B.log_loss = 0 → (compare_models_improvements A B).log_loss = 0) ∧
    (B.accuracy < A.accuracy → 0 < B.accuracy →
      0 < (compare_models_improvements A B).accuracy) ∧
    (A.log_loss < B.log_loss → 0 < B.log_loss →
      0 < (compare_models_improvements A B).log_loss) := by
  refine ⟨fun h => ?_, fun h => ?_, fun h => ?_, fun h => ?_, fun h => ?_,
    fun h => ?_, fun h => ?_, fun h => ?_, fun h => ?_, fun h => ?_,
    fun h => ?_, fun h => ?_, fun hlt h => ?_, fun hlt h => ?_⟩ <;>
    simp only [compare_models_improvements, metric_improvement,
      log_loss_improvement] <;>
    first
      | rw [if_pos h]
      | (rw [if_neg (by rw [h]; exact lt_irrefl 0)])
  · have hd : 0 < A.accuracy - B.accuracy := by linarith
    positivity
  · have hd : 0 < B.log_loss - A.log_loss := by linarith
    positivity

theorem compare_models_improvement_formulae_witness :
    (0 < (8:ℚ)/10 →
      (compare_models_improvements
        ⟨9/10, 9/10, 9/10, 9/10, 9/10, 2/10⟩
        ⟨8/10, 8/10, 8/10, 8/10, 8/10, 4/10⟩).accuracy =
          ((9:ℚ)/10 - 8/10) / (8/10) * 100) ∧
    ((8:ℚ)/10 = 0 →
      (compare_models_improvements
        ⟨9/10, 9/10, 9/10, 9/10, 9/10, 2/10⟩
        ⟨8/10, 8/10, 8/10, 8/10, 8/10, 4/10⟩).accuracy = 0) ∧
    (0 < (8:ℚ)/10 →
      (compare_models_improvements
        ⟨9/10, 9/10, 9/10, 9/10, 9/10, 2/10⟩
        ⟨8/10, 8/10, 8/10, 8/10, 8/10, 4/10⟩).precision_score =
          ((9:ℚ)/10 - 8/10) / (8/10) * 100) ∧
    ((8:ℚ)/10 = 0 →
      (compare_models_improvements
        ⟨9/10, 9/10, 9/10, 9/10, 9/10, 2/10⟩
        ⟨8/10, 8/10, 8/10, 8/10, 8/10, 4/10⟩).precision_score = 0) ∧
    (0 < (8:ℚ)/10 →
      (compare_models_improvements
        ⟨9/10, 9/10, 9/10, 9/10, 9/10, 2/10⟩
        ⟨8/10, 8/10, 8/10, 8/10, 8/10, 4/10⟩).recall_score =
          ((9:ℚ)/10 - 8/10) / (8/10) * 100) ∧
    ((8:ℚ)/10 = 0 →
      (compare_models_improvements
        ⟨9/10, 9/10, 9/10, 9/10, 9/10, 2/10⟩
        ⟨8/10, 8/10, 8/10, 8/10, 8/10, 4/10⟩).recall_score = 0) ∧
    (0 < (8:ℚ)/10 →
      (compare_models_improvements
        ⟨9/10, 9/10, 9/10, 9/10, 9/10, 2/10⟩
        ⟨8/10, 8/10, 8/10, 8/10, 8/10, 4/10⟩).f1_score =
          ((9:ℚ)/10 - 8/10) / (8/10) * 100) ∧
    ((8:ℚ)/10 = 0 →
      (compare_models_improvements
        ⟨9/10, 9/10, 9/10, 9/10, 9/10, 2/10⟩
        ⟨8/10, 8/10, 8/10, 8/10, 8/10, 4/10⟩).f1_score = 0) ∧
    (0 < (8:ℚ)/10 →
      (compare_models_improvements
        ⟨9/10, 9/10, 9/10, 9/10, 9/10, 2/10⟩
        ⟨8/10, 8/10, 8/10, 8/10, 8/10, 4/10⟩).roc_auc =
          ((9:ℚ)/10 - 8/10) / (8/10) * 100) ∧
    ((8:ℚ)/10 = 0 →
      (compare_models_improvements
        ⟨9/10, 9/10, 9/10, 9/10, 9/10, 2/10⟩
        ⟨8/10, 8/10, 8/10, 8/10, 8/10, 4/10⟩).roc_auc = 0) ∧
    (0 < (4:ℚ)/10 →
      (compare_models_improvements
        ⟨9/10, 9/10, 9/10, 9/10, 9/10, 2/10⟩
        ⟨8/10, 8/10, 8/10, 8/10, 8/10, 4/10⟩).log_loss =
          ((4:ℚ)/10 - 2/10) / (4/10) * 100) ∧
    ((4:ℚ)/10 = 0 →
      (compare_models_improvements
        ⟨9/10, 9/10, 9/10, 9/10, 9/10, 2/10⟩
        ⟨8/10, 8/10, 8/10, 8/10, 8/10, 4/10⟩).log_loss = 0) ∧
    ((8:ℚ)/10 < 9/10 → 0 < (8:ℚ)/10 →
      0 < (compare_models_improvements
        ⟨9/10, 9/10, 9/10, 9/10, 9/10, 2/10⟩
        ⟨8/10, 8/10, 8/10, 8/10, 8/10, 4/10⟩).accuracy) ∧
    ((2:ℚ)/10 < 4/10 → 0 < (4:ℚ)/10 →
      0 < (compare_models_improvements
        ⟨9/10, 9/10, 9/10, 9/10, 9/10, 2/10⟩
        ⟨8/10, 8/10, 8/10, 8/10, 8/10, 4/10⟩).log_loss) :=
  compare_models_improvement_formulae
    ⟨9/10, 9/10, 9/10, 9/10, 9/10, 2/10⟩
    ⟨8/10, 8/10, 8/10, 8/10, 8/10, 4/10⟩

end LoneVerse

